import Mathlib

/-!
# Verification of `direct3d_s2/models/autoencoders/dense_vae.py`

A shallow embedding of the dense shape VAE module of Direct3D-S2 and proofs
of the specification's claims about it.

The embedding has three layers, each translated from the Python source:

* a *structural/configuration* model (`Conv3dM`, `NormM`, `ResBlockM`,
  `DownsampleBlock3dM`, `UpsampleBlock3dM`, `SparseStructureEncoderM`,
  `SparseStructureDecoderM`): which sub-modules each constructor builds, which
  constructions raise, the parameter dtypes touched by the precision-conversion
  methods, and the spatial-shape semantics of each layer;
* a *value* model of `ResBlock3d.forward` over rational tensors
  (`Tensor`, `conv3same`, `ResBlock3dV`), precise enough to settle the
  zero-initialization pass-through claim;
* a *value* model of the `DenseShapeVAE` entry points
  (`DenseShapeVAE.encode`, `decode_mesh`, `dense2mesh`) over rational grids,
  with the external numeric primitives (torch's elementwise `sigmoid`,
  skimage's `marching_cubes`) taken as explicit function parameters, since
  they are third-party library calls, not code of this repository.

Repository modules imported by the file but not part of it
(`modules.norm`, `modules.spatial`, `modules.utils`, `distributions`) are
modelled from the spec where they matter; each such definition carries a
`Modelled from the spec:` doc comment.
-/

namespace DenseVAE

/-- Python's `out_channels or channels` (`ResBlock3d.__init__`): falls back to
`channels` when `out_channels` is `None` *or* `0` (Python falsiness). -/
def pyOr (o : Option Nat) (c : Nat) : Nat :=
  match o with
  | none => c
  | some k => if k = 0 then c else k

/-- Parameter dtype of a module, as toggled by the fp16/fp32 conversions. -/
inductive DType where
  | f16
  | f32
deriving DecidableEq, Repr

/-- Configuration of an `nn.Conv3d` layer: channel counts, kernel size,
stride, padding, and the dtype of its parameters (weights are irrelevant to
the structural claims). Freshly constructed torch modules are float32. -/
structure Conv3dM where
  inC : Nat
  outC : Nat
  kernel : Nat
  stride : Nat
  padding : Nat
  dtype : DType
deriving DecidableEq, Repr

/-- Embeds `nn.Conv3d(inC, outC, k, stride=s, padding=p)`, fresh (float32). -/
def Conv3dM.mk3d (inC outC k s p : Nat) : Conv3dM :=
  ⟨inC, outC, k, s, p, .f32⟩

/-- Modelled from the spec: the two normalization layers imported from
`...modules.norm` (`GroupNorm32`, `ChannelLayerNorm32`), "group-wise and
channel-wise variants" of per-channel normalization.  Only their identity,
channel configuration and parameter dtype matter to the claims. -/
inductive NormM where
  | group (numGroups ch : Nat) (dtype : DType)
  | layer (ch : Nat) (dtype : DType)
deriving DecidableEq, Repr

/-- Embeds `norm_layer(norm_type, ch)`: `"group"` gives `GroupNorm32(32, ch)`,
`"layer"` gives `ChannelLayerNorm32(ch)`, anything else raises `ValueError`. -/
def norm_layer (norm_type : String) (ch : Nat) : Except String NormM :=
  if norm_type = "group" then
    .ok (.group 32 ch .f32)
  else if norm_type = "layer" then
    .ok (.layer ch .f32)
  else
    .error ("Invalid norm type " ++ norm_type)

/-- Structural state of a `ResBlock3d`: its two normalizations, two 3×3×3
convolutions and optional 1×1×1 projection shortcut (`none` = `nn.Identity`). -/
structure ResBlockM where
  channels : Nat
  out_channels : Nat
  norm1 : NormM
  norm2 : NormM
  conv1 : Conv3dM
  conv2 : Conv3dM
  skip_connection : Option Conv3dM
deriving DecidableEq, Repr

/-- Embeds `ResBlock3d.__init__(channels, out_channels, norm_type)`.  `conv2` is
wrapped in `zero_module` (modelled from the spec as the zero-initialization
utility; it only changes parameter values, which the structural model does not
track).  The shortcut is a 1×1×1 convolution iff `channels != out_channels`. -/
def ResBlockM.init (channels : Nat) (out_channels : Option Nat)
    (norm_type : String := "layer") : Except String ResBlockM := do
  let oc := pyOr out_channels channels
  let n1 ← norm_layer norm_type channels
  let n2 ← norm_layer norm_type oc
  return { channels := channels
           out_channels := oc
           norm1 := n1
           norm2 := n2
           conv1 := Conv3dM.mk3d channels oc 3 1 1
           conv2 := Conv3dM.mk3d oc oc 3 1 1
           skip_connection :=
             if channels ≠ oc then some (Conv3dM.mk3d channels oc 1 1 0) else none }

/-- Structural state of a `DownsampleBlock3d`: in `"conv"` mode it owns a
stride-2 convolution, in `"avgpool"` mode no sub-module (`F.avg_pool3d`). -/
structure DownsampleBlock3dM where
  in_channels : Nat
  out_channels : Nat
  conv : Option Conv3dM
deriving DecidableEq, Repr

/-- Embeds `DownsampleBlock3d.__init__(in_channels, out_channels, mode)`: asserts the
mode is recognized, and in `"avgpool"` mode asserts
`in_channels == out_channels`. -/
def DownsampleBlock3dM.init (in_channels out_channels : Nat)
    (mode : String := "conv") : Except String DownsampleBlock3dM := do
  if mode ≠ "conv" ∧ mode ≠ "avgpool" then
    throw ("Invalid mode " ++ mode)
  if mode = "conv" then
    return ⟨in_channels, out_channels, some (Conv3dM.mk3d in_channels out_channels 2 2 0)⟩
  else
    if in_channels ≠ out_channels then
      throw "Pooling mode requires in_channels to be equal to out_channels"
    return ⟨in_channels, out_channels, none⟩

/-- Structural state of an `UpsampleBlock3d`: in `"conv"` mode a stride-1
convolution to `out_channels*8` (followed by the 3D pixel shuffle), in
`"nearest"` mode no sub-module (`F.interpolate`). -/
structure UpsampleBlock3dM where
  in_channels : Nat
  out_channels : Nat
  conv : Option Conv3dM
deriving DecidableEq, Repr

/-- Embeds `UpsampleBlock3d.__init__(in_channels, out_channels, mode)`: asserts the
mode is recognized, and in `"nearest"` mode asserts
`in_channels == out_channels`. -/
def UpsampleBlock3dM.init (in_channels out_channels : Nat)
    (mode : String := "conv") : Except String UpsampleBlock3dM := do
  if mode ≠ "conv" ∧ mode ≠ "nearest" then
    throw ("Invalid mode " ++ mode)
  if mode = "conv" then
    return ⟨in_channels, out_channels, some (Conv3dM.mk3d in_channels (out_channels * 8) 3 1 1)⟩
  else
    if in_channels ≠ out_channels then
      throw "Nearest mode requires in_channels to be equal to out_channels"
    return ⟨in_channels, out_channels, none⟩

/-- One entry of an encoder's `self.blocks` `ModuleList`: a residual block or
a downsample block. -/
inductive EncBlockM where
  | res (r : ResBlockM)
  | down (d : DownsampleBlock3dM)
deriving DecidableEq, Repr

/-- One entry of a decoder's `self.blocks` `ModuleList`: a residual block or
an upsample block. -/
inductive DecBlockM where
  | res (r : ResBlockM)
  | up (u : UpsampleBlock3dM)
deriving DecidableEq, Repr

/-- The encoder/decoder `out_layer`: `nn.Sequential(norm, SiLU, Conv3d)`
(the SiLU has no parameters). -/
structure OutLayerM where
  norm : NormM
  conv : Conv3dM
deriving DecidableEq, Repr

/-- Embeds `[ResBlock3d(ch, ch) for _ in range(n)]` (norm_type left at its `"layer"`
default). -/
def resBlocksM (ch : Nat) : Nat → Except String (List ResBlockM)
  | 0 => .ok []
  | n + 1 => do
    let r ← ResBlockM.init ch (some ch)
    let rest ← resBlocksM ch n
    return r :: rest

/-- The encoder's staged `self.blocks` loop: for each `ch` in `channels`,
`num_res_blocks` residual blocks at width `ch`, then (except after the last
stage) a `DownsampleBlock3d(ch, channels[i+1])` in its default `"conv"` mode. -/
def encBlocksM (num_res_blocks : Nat) : List Nat → Except String (List EncBlockM)
  | [] => .ok []
  | [ch] => do
    let rs ← resBlocksM ch num_res_blocks
    return rs.map .res
  | ch :: ch' :: rest => do
    let rs ← resBlocksM ch num_res_blocks
    let d ← DownsampleBlock3dM.init ch ch'
    let tail ← encBlocksM num_res_blocks (ch' :: rest)
    return rs.map .res ++ .down d :: tail

/-- The decoder's staged `self.blocks` loop: residual blocks then (between
stages) an `UpsampleBlock3d(ch, channels[i+1])` in its default `"conv"` mode. -/
def decBlocksM (num_res_blocks : Nat) : List Nat → Except String (List DecBlockM)
  | [] => .ok []
  | [ch] => do
    let rs ← resBlocksM ch num_res_blocks
    return rs.map .res
  | ch :: ch' :: rest => do
    let rs ← resBlocksM ch num_res_blocks
    let u ← UpsampleBlock3dM.init ch ch'
    let tail ← decBlocksM num_res_blocks (ch' :: rest)
    return rs.map .res ++ .up u :: tail

/-- Structural state of a `SparseStructureEncoder`. -/
structure SparseStructureEncoderM where
  in_channels : Nat
  latent_channels : Nat
  num_res_blocks : Nat
  channels : List Nat
  num_res_blocks_middle : Nat
  norm_type : String
  use_fp16 : Bool
  dtype : DType
  input_layer : Conv3dM
  blocks : List EncBlockM
  middle_block : List ResBlockM
  out_layer : OutLayerM
deriving DecidableEq, Repr

/-- Structural state of a `SparseStructureDecoder`. -/
structure SparseStructureDecoderM where
  out_channels : Nat
  latent_channels : Nat
  num_res_blocks : Nat
  channels : List Nat
  num_res_blocks_middle : Nat
  norm_type : String
  use_fp16 : Bool
  dtype : DType
  input_layer : Conv3dM
  middle_block : List ResBlockM
  blocks : List DecBlockM
  out_layer : OutLayerM
deriving DecidableEq, Repr

/-! ### Precision conversion

`convert_module_to_f16` / `convert_module_to_f32` are imported from
`...modules.utils`.  Modelled from the spec: a "precision-cast utility" —
`module.apply(convert_module_to_f16)` casts the parameters of every submodule
in the subtree to float16 (resp. float32).  In the structural model this is a
recursive map over the `dtype` fields. -/

/-- Cast a convolution's parameters. -/
def Conv3dM.toDtype (t : DType) (c : Conv3dM) : Conv3dM := { c with dtype := t }

/-- Cast a normalization layer's parameters. -/
def NormM.toDtype (t : DType) : NormM → NormM
  | .group g ch _ => .group g ch t
  | .layer ch _ => .layer ch t

/-- Cast every parameter of a residual block. -/
def ResBlockM.toDtype (t : DType) (r : ResBlockM) : ResBlockM :=
  { r with
    norm1 := r.norm1.toDtype t
    norm2 := r.norm2.toDtype t
    conv1 := r.conv1.toDtype t
    conv2 := r.conv2.toDtype t
    skip_connection := r.skip_connection.map (Conv3dM.toDtype t) }

/-- Cast every parameter of a downsample block. -/
def DownsampleBlock3dM.toDtype (t : DType) (d : DownsampleBlock3dM) : DownsampleBlock3dM :=
  { d with conv := d.conv.map (Conv3dM.toDtype t) }

/-- Cast every parameter of an upsample block. -/
def UpsampleBlock3dM.toDtype (t : DType) (u : UpsampleBlock3dM) : UpsampleBlock3dM :=
  { u with conv := u.conv.map (Conv3dM.toDtype t) }

/-- Cast every parameter of a staged encoder block. -/
def EncBlockM.toDtype (t : DType) : EncBlockM → EncBlockM
  | .res r => .res (r.toDtype t)
  | .down d => .down (d.toDtype t)

/-- Cast every parameter of a staged decoder block. -/
def DecBlockM.toDtype (t : DType) : DecBlockM → DecBlockM
  | .res r => .res (r.toDtype t)
  | .up u => .up (u.toDtype t)

/-- Cast every parameter of an `out_layer`. -/
def OutLayerM.toDtype (t : DType) (o : OutLayerM) : OutLayerM :=
  { norm := o.norm.toDtype t, conv := o.conv.toDtype t }

/-- Embeds `SparseStructureEncoder.convert_to_fp16`: sets the flags and applies the
f16 cast to `self.blocks` and `self.middle_block` only. -/
def SparseStructureEncoderM.convert_to_fp16 (e : SparseStructureEncoderM) :
    SparseStructureEncoderM :=
  { e with
    use_fp16 := true
    dtype := .f16
    blocks := e.blocks.map (EncBlockM.toDtype .f16)
    middle_block := e.middle_block.map (ResBlockM.toDtype .f16) }

/-- Embeds `SparseStructureEncoder.convert_to_fp32`: sets the flags and applies the
f32 cast to `self.blocks` and `self.middle_block` only. -/
def SparseStructureEncoderM.convert_to_fp32 (e : SparseStructureEncoderM) :
    SparseStructureEncoderM :=
  { e with
    use_fp16 := false
    dtype := .f32
    blocks := e.blocks.map (EncBlockM.toDtype .f32)
    middle_block := e.middle_block.map (ResBlockM.toDtype .f32) }

/-- Embeds `SparseStructureDecoder.convert_to_fp16`: sets the flags and applies the
f16 cast to `self` — the whole module, including `input_layer` and
`out_layer` (the per-component lines are commented out in the source). -/
def SparseStructureDecoderM.convert_to_fp16 (d : SparseStructureDecoderM) :
    SparseStructureDecoderM :=
  { d with
    use_fp16 := true
    dtype := .f16
    input_layer := d.input_layer.toDtype .f16
    middle_block := d.middle_block.map (ResBlockM.toDtype .f16)
    blocks := d.blocks.map (DecBlockM.toDtype .f16)
    out_layer := d.out_layer.toDtype .f16 }

/-- Embeds `SparseStructureDecoder.convert_to_fp32`: sets the flags and applies the
f32 cast to `self.blocks` and `self.middle_block` only (unlike its fp16
counterpart, it does not touch `input_layer` or `out_layer`). -/
def SparseStructureDecoderM.convert_to_fp32 (d : SparseStructureDecoderM) :
    SparseStructureDecoderM :=
  { d with
    use_fp16 := false
    dtype := .f32
    blocks := d.blocks.map (DecBlockM.toDtype .f32)
    middle_block := d.middle_block.map (ResBlockM.toDtype .f32) }

/-- Embeds `SparseStructureEncoder.__init__`.  `channels.headI`/`channels.getLastI`
stand for `channels[0]`/`channels[-1]` (valid configurations have a nonempty
list; Python would raise `IndexError` on `[]`, here the claims all assume
nonemptiness).  When `use_fp16` is set the constructor ends by calling
`convert_to_fp16`. -/
def SparseStructureEncoderM.init (in_channels latent_channels num_res_blocks : Nat)
    (channels : List Nat) (num_res_blocks_middle : Nat := 2)
    (norm_type : String := "layer") (use_fp16 : Bool := false) :
    Except String SparseStructureEncoderM := do
  let blocks ← encBlocksM num_res_blocks channels
  let middle ← resBlocksM channels.getLastI num_res_blocks_middle
  let outNorm ← norm_layer norm_type channels.getLastI
  let e : SparseStructureEncoderM :=
    { in_channels := in_channels
      latent_channels := latent_channels
      num_res_blocks := num_res_blocks
      channels := channels
      num_res_blocks_middle := num_res_blocks_middle
      norm_type := norm_type
      use_fp16 := use_fp16
      dtype := if use_fp16 then .f16 else .f32
      input_layer := Conv3dM.mk3d in_channels channels.headI 3 1 1
      blocks := blocks
      middle_block := middle
      out_layer := ⟨outNorm, Conv3dM.mk3d channels.getLastI (latent_channels * 2) 3 1 1⟩ }
  return if use_fp16 then e.convert_to_fp16 else e

/-- Embeds `SparseStructureDecoder.__init__`.  The middle block sits at
`channels[0]` and the staged blocks upsample through `channels`; when
`use_fp16` is set the constructor ends by calling `convert_to_fp16`. -/
def SparseStructureDecoderM.init (out_channels latent_channels num_res_blocks : Nat)
    (channels : List Nat) (num_res_blocks_middle : Nat := 2)
    (norm_type : String := "layer") (use_fp16 : Bool := false) :
    Except String SparseStructureDecoderM := do
  let middle ← resBlocksM channels.headI num_res_blocks_middle
  let blocks ← decBlocksM num_res_blocks channels
  let outNorm ← norm_layer norm_type channels.getLastI
  let d : SparseStructureDecoderM :=
    { out_channels := out_channels
      latent_channels := latent_channels
      num_res_blocks := num_res_blocks
      channels := channels
      num_res_blocks_middle := num_res_blocks_middle
      norm_type := norm_type
      use_fp16 := use_fp16
      dtype := if use_fp16 then .f16 else .f32
      input_layer := Conv3dM.mk3d latent_channels channels.headI 3 1 1
      middle_block := middle
      blocks := blocks
      out_layer := ⟨outNorm, Conv3dM.mk3d channels.getLastI out_channels 3 1 1⟩ }
  return if use_fp16 then d.convert_to_fp16 else d

/-! ### Characterization of the constructors

The staged block lists are built with the default `norm_type="layer"` and
`mode="conv"`, so their construction always succeeds; the following total
functions compute the resulting module trees, and the lemmas identify them
with the `Except`-monadic constructors. -/

/-- Reduction of an `Except` bind on a success value. -/
theorem okBind {ε α β : Type} (a : α) (f : α → Except ε β) :
    (Except.ok a : Except ε α) >>= f = f a := rfl

/-- The residual block produced by `ResBlock3d(channels, oc)` with the default
layer norm. -/
def freshResBlockM (channels oc : Nat) : ResBlockM :=
  { channels := channels
    out_channels := oc
    norm1 := .layer channels .f32
    norm2 := .layer oc .f32
    conv1 := Conv3dM.mk3d channels oc 3 1 1
    conv2 := Conv3dM.mk3d oc oc 3 1 1
    skip_connection :=
      if channels ≠ oc then some (Conv3dM.mk3d channels oc 1 1 0) else none }

theorem pyOr_some_self (c : Nat) : pyOr (some c) c = c := by
  simp [pyOr]

theorem ResBlockM.init_layer (c : Nat) (o : Option Nat) :
    ResBlockM.init c o "layer" = .ok (freshResBlockM c (pyOr o c)) := by
  simp [ResBlockM.init, norm_layer, freshResBlockM]
  rfl

theorem resBlocksM_eq (ch : Nat) (n : Nat) :
    resBlocksM ch n = .ok (List.replicate n (freshResBlockM ch ch)) := by
  induction n with
  | zero => rfl
  | succ n ih =>
    simp [resBlocksM, ResBlockM.init_layer, pyOr_some_self, ih, List.replicate_succ]
    rfl

theorem downInit_conv (i o : Nat) :
    DownsampleBlock3dM.init i o "conv" =
      .ok ⟨i, o, some (Conv3dM.mk3d i o 2 2 0)⟩ := by
  rfl

theorem upInit_conv (i o : Nat) :
    UpsampleBlock3dM.init i o "conv" =
      .ok ⟨i, o, some (Conv3dM.mk3d i (o * 8) 3 1 1)⟩ := by
  rfl

/-- Total computation of the encoder's staged `self.blocks` list. -/
def encBlocksPure (n : Nat) : List Nat → List EncBlockM
  | [] => []
  | [ch] => (List.replicate n (freshResBlockM ch ch)).map .res
  | ch :: ch' :: rest =>
      (List.replicate n (freshResBlockM ch ch)).map .res ++
        .down ⟨ch, ch', some (Conv3dM.mk3d ch ch' 2 2 0)⟩ :: encBlocksPure n (ch' :: rest)

/-- Total computation of the decoder's staged `self.blocks` list. -/
def decBlocksPure (n : Nat) : List Nat → List DecBlockM
  | [] => []
  | [ch] => (List.replicate n (freshResBlockM ch ch)).map .res
  | ch :: ch' :: rest =>
      (List.replicate n (freshResBlockM ch ch)).map .res ++
        .up ⟨ch, ch', some (Conv3dM.mk3d ch (ch' * 8) 3 1 1)⟩ :: decBlocksPure n (ch' :: rest)

theorem encBlocksM_eq (n : Nat) :
    ∀ channels : List Nat, encBlocksM n channels = .ok (encBlocksPure n channels)
  | [] => rfl
  | [ch] => by
    simp [encBlocksM, encBlocksPure, resBlocksM_eq]
  | ch :: ch' :: rest => by
    simp [encBlocksM, encBlocksPure, resBlocksM_eq, downInit_conv,
      encBlocksM_eq n (ch' :: rest), okBind, List.map_replicate]

theorem decBlocksM_eq (n : Nat) :
    ∀ channels : List Nat, decBlocksM n channels = .ok (decBlocksPure n channels)
  | [] => rfl
  | [ch] => by
    simp [decBlocksM, decBlocksPure, resBlocksM_eq]
  | ch :: ch' :: rest => by
    simp [decBlocksM, decBlocksPure, resBlocksM_eq, upInit_conv,
      decBlocksM_eq n (ch' :: rest), okBind, List.map_replicate]

/-- The encoder produced by a successful `SparseStructureEncoder.__init__`
before the optional fp16 conversion. -/
def freshEncoderM (in_channels latent_channels num_res_blocks : Nat)
    (channels : List Nat) (num_res_blocks_middle : Nat)
    (norm_type : String) (use_fp16 : Bool) (outNorm : NormM) :
    SparseStructureEncoderM :=
  { in_channels := in_channels
    latent_channels := latent_channels
    num_res_blocks := num_res_blocks
    channels := channels
    num_res_blocks_middle := num_res_blocks_middle
    norm_type := norm_type
    use_fp16 := use_fp16
    dtype := if use_fp16 then .f16 else .f32
    input_layer := Conv3dM.mk3d in_channels channels.headI 3 1 1
    blocks := encBlocksPure num_res_blocks channels
    middle_block := List.replicate num_res_blocks_middle
      (freshResBlockM channels.getLastI channels.getLastI)
    out_layer := ⟨outNorm, Conv3dM.mk3d channels.getLastI (latent_channels * 2) 3 1 1⟩ }

/-- The decoder produced by a successful `SparseStructureDecoder.__init__`
before the optional fp16 conversion. -/
def freshDecoderM (out_channels latent_channels num_res_blocks : Nat)
    (channels : List Nat) (num_res_blocks_middle : Nat)
    (norm_type : String) (use_fp16 : Bool) (outNorm : NormM) :
    SparseStructureDecoderM :=
  { out_channels := out_channels
    latent_channels := latent_channels
    num_res_blocks := num_res_blocks
    channels := channels
    num_res_blocks_middle := num_res_blocks_middle
    norm_type := norm_type
    use_fp16 := use_fp16
    dtype := if use_fp16 then .f16 else .f32
    input_layer := Conv3dM.mk3d latent_channels channels.headI 3 1 1
    middle_block := List.replicate num_res_blocks_middle
      (freshResBlockM channels.headI channels.headI)
    blocks := decBlocksPure num_res_blocks channels
    out_layer := ⟨outNorm, Conv3dM.mk3d channels.getLastI out_channels 3 1 1⟩ }

theorem encInit_eq (a l n : Nat) (channels : List Nat)
    (m : Nat) (nt : String) (fp : Bool) :
    SparseStructureEncoderM.init a l n channels m nt fp =
      (norm_layer nt channels.getLastI).map (fun outNorm =>
        let e := freshEncoderM a l n channels m nt fp outNorm
        if fp then e.convert_to_fp16 else e) := by
  cases h : norm_layer nt channels.getLastI with
  | ok nrm =>
    simp [SparseStructureEncoderM.init, encBlocksM_eq, resBlocksM_eq, h,
      freshEncoderM, Except.map]
    rfl
  | error e =>
    simp [SparseStructureEncoderM.init, encBlocksM_eq, resBlocksM_eq, h,
      Except.map]
    rfl

theorem decInit_eq (a l n : Nat) (channels : List Nat)
    (m : Nat) (nt : String) (fp : Bool) :
    SparseStructureDecoderM.init a l n channels m nt fp =
      (norm_layer nt channels.getLastI).map (fun outNorm =>
        let d := freshDecoderM a l n channels m nt fp outNorm
        if fp then d.convert_to_fp16 else d) := by
  cases h : norm_layer nt channels.getLastI with
  | ok nrm =>
    simp [SparseStructureDecoderM.init, decBlocksM_eq, resBlocksM_eq, h,
      freshDecoderM, Except.map]
    rfl
  | error e =>
    simp [SparseStructureDecoderM.init, decBlocksM_eq, resBlocksM_eq, h,
      Except.map]
    rfl

/-! ### Spatial-shape semantics

All kernels in the file are cubic and all strides/paddings isotropic, so the
three spatial axes transform independently and identically; the semantics is
given per axis (a `Nat` size) and the claims are stated for each of the three
spatial dimensions separately. -/

/-- Output size of one spatial axis of a 3D convolution:
`floor((s + 2*padding - kernel) / stride) + 1`. -/
def Conv3dM.outSize (c : Conv3dM) (s : Nat) : Nat :=
  (s + 2 * c.padding - c.kernel) / c.stride + 1

/-- Spatial size through `ResBlock3d.forward`: the two 3×3×3 same-padded
convolutions (normalizations, SiLU and the shortcut addition preserve shape). -/
def ResBlockM.outSize (r : ResBlockM) (s : Nat) : Nat :=
  r.conv2.outSize (r.conv1.outSize s)

/-- Spatial size through `DownsampleBlock3d.forward`: the stride-2 convolution
if one was constructed, else `F.avg_pool3d(x, 2)` which halves the axis. -/
def DownsampleBlock3dM.outSize (d : DownsampleBlock3dM) (s : Nat) : Nat :=
  match d.conv with
  | some c => c.outSize s
  | none => s / 2

/-- Spatial size through `UpsampleBlock3d.forward`: the stride-1 convolution
followed by `pixel_shuffle_3d(x, 2)` if one was constructed, else
`F.interpolate(x, scale_factor=2)`.  Modelled from the spec: the 3D pixel
shuffle from `...modules.spatial` consumes the 8-fold channel multiplier as a
2×2×2 spatial block, i.e. doubles each spatial axis. -/
def UpsampleBlock3dM.outSize (u : UpsampleBlock3dM) (s : Nat) : Nat :=
  match u.conv with
  | some c => 2 * c.outSize s
  | none => 2 * s

/-- Spatial size through one entry of the encoder's `self.blocks`. -/
def EncBlockM.outSize : EncBlockM → Nat → Nat
  | .res r, s => r.outSize s
  | .down d, s => d.outSize s

/-- Spatial size through one entry of the decoder's `self.blocks`. -/
def DecBlockM.outSize : DecBlockM → Nat → Nat
  | .res r, s => r.outSize s
  | .up u, s => u.outSize s

/-- Spatial size of one axis through `SparseStructureEncoder.forward`:
`input_layer`, the staged blocks, the middle residual stack, `out_layer`. -/
def SparseStructureEncoderM.forwardSize (e : SparseStructureEncoderM) (s : Nat) : Nat :=
  let h := e.input_layer.outSize s
  let h := e.blocks.foldl (fun a b => b.outSize a) h
  let h := e.middle_block.foldl (fun a r => r.outSize a) h
  e.out_layer.conv.outSize h

/-- Spatial size of one axis through `SparseStructureDecoder.forward`:
`input_layer`, the middle residual stack, the staged blocks, `out_layer`. -/
def SparseStructureDecoderM.forwardSize (d : SparseStructureDecoderM) (s : Nat) : Nat :=
  let h := d.input_layer.outSize s
  let h := d.middle_block.foldl (fun a r => r.outSize a) h
  let h := d.blocks.foldl (fun a b => b.outSize a) h
  d.out_layer.conv.outSize h

theorem conv311_outSize (i o s : Nat) (hs : 0 < s) :
    (Conv3dM.mk3d i o 3 1 1).outSize s = s := by
  simp only [Conv3dM.outSize, Conv3dM.mk3d]
  omega

theorem conv220_outSize (i o s : Nat) (hs : 0 < s) (h2 : 2 ∣ s) :
    (Conv3dM.mk3d i o 2 2 0).outSize s = s / 2 := by
  simp only [Conv3dM.outSize, Conv3dM.mk3d]
  omega

theorem freshResBlockM_outSize (c oc s : Nat) (hs : 0 < s) :
    (freshResBlockM c oc).outSize s = s := by
  simp [ResBlockM.outSize, freshResBlockM, conv311_outSize, hs]

theorem foldl_resBlocks_outSize (c n s : Nat) (hs : 0 < s) :
    (List.replicate n (freshResBlockM c c)).foldl (fun a r => ResBlockM.outSize r a) s
      = s := by
  induction n with
  | zero => rfl
  | succ n ih =>
    simp [List.replicate_succ, List.foldl_cons, freshResBlockM_outSize, hs, ih]

theorem foldl_encRes_outSize (c n s : Nat) (hs : 0 < s) :
    (List.replicate n (EncBlockM.res (freshResBlockM c c))).foldl
      (fun a b => EncBlockM.outSize b a) s = s := by
  induction n with
  | zero => rfl
  | succ n ih =>
    simp only [List.replicate_succ, List.foldl_cons,
      EncBlockM.outSize, freshResBlockM_outSize c c s hs]
    exact ih

theorem foldl_decRes_outSize (c n s : Nat) (hs : 0 < s) :
    (List.replicate n (DecBlockM.res (freshResBlockM c c))).foldl
      (fun a b => DecBlockM.outSize b a) s = s := by
  induction n with
  | zero => rfl
  | succ n ih =>
    simp only [List.replicate_succ, List.foldl_cons,
      DecBlockM.outSize, freshResBlockM_outSize c c s hs]
    exact ih

/-- Folding the encoder's staged blocks over an axis of positive size
divisible by `2^(stages-1)` divides the axis by `2^(stages-1)`. -/
theorem encBlocksPure_outSize (n : Nat) :
    ∀ (channels : List Nat) (s : Nat), 0 < s → 2 ^ (channels.length - 1) ∣ s →
      (encBlocksPure n channels).foldl (fun a b => EncBlockM.outSize b a) s
        = s / 2 ^ (channels.length - 1)
  | [], s, hs, _ => by simp [encBlocksPure]
  | [ch], s, hs, _ => by
    simp only [encBlocksPure, List.map_replicate, List.length_cons,
      List.length_nil, Nat.add_sub_cancel, pow_zero, Nat.div_one]
    exact foldl_encRes_outSize ch n s hs
  | ch :: ch' :: rest, s, hs, hdvd => by
    have hlen : (ch :: ch' :: rest).length - 1 = (ch' :: rest).length := by simp
    rw [hlen] at hdvd ⊢
    have hpow : 2 ^ (ch' :: rest).length = 2 * 2 ^ ((ch' :: rest).length - 1) := by
      have h1 : (ch' :: rest).length - 1 + 1 = (ch' :: rest).length := by simp
      calc 2 ^ (ch' :: rest).length
          = 2 ^ ((ch' :: rest).length - 1 + 1) := by rw [h1]
        _ = 2 ^ ((ch' :: rest).length - 1) * 2 := pow_succ 2 _
        _ = 2 * 2 ^ ((ch' :: rest).length - 1) := by ring
    obtain ⟨k, hk⟩ := hdvd
    have hs_eq : s = 2 * (2 ^ ((ch' :: rest).length - 1) * k) := by
      rw [hk, hpow]; ring
    have h2 : 2 ∣ s := ⟨_, hs_eq⟩
    have hdiv : s / 2 = 2 ^ ((ch' :: rest).length - 1) * k := by
      rw [hs_eq, Nat.mul_div_cancel_left _ (by norm_num)]
    have hdvd2 : 2 ^ ((ch' :: rest).length - 1) ∣ s / 2 := ⟨k, hdiv⟩
    have hs2 : 0 < s / 2 := Nat.div_pos (Nat.le_of_dvd hs h2) (by norm_num)
    rw [encBlocksPure, List.map_replicate, List.foldl_append,
      foldl_encRes_outSize ch n s hs, List.foldl_cons]
    have hdown : EncBlockM.outSize
        (.down ⟨ch, ch', some (Conv3dM.mk3d ch ch' 2 2 0)⟩) s = s / 2 := by
      simp [EncBlockM.outSize, DownsampleBlock3dM.outSize, conv220_outSize ch ch' s hs h2]
    rw [hdown, encBlocksPure_outSize n (ch' :: rest) (s / 2) hs2 hdvd2,
      Nat.div_div_eq_div_mul, ← hpow]

/-- Folding the decoder's staged blocks over an axis of positive size
multiplies the axis by `2^(stages-1)`. -/
theorem decBlocksPure_outSize (n : Nat) :
    ∀ (channels : List Nat) (s : Nat), 0 < s →
      (decBlocksPure n channels).foldl (fun a b => DecBlockM.outSize b a) s
        = s * 2 ^ (channels.length - 1)
  | [], s, hs => by simp [decBlocksPure]
  | [ch], s, hs => by
    simp only [decBlocksPure, List.map_replicate, List.length_cons,
      List.length_nil, Nat.add_sub_cancel, pow_zero, Nat.mul_one]
    exact foldl_decRes_outSize ch n s hs
  | ch :: ch' :: rest, s, hs => by
    rw [decBlocksPure, List.map_replicate, List.foldl_append,
      foldl_decRes_outSize ch n s hs, List.foldl_cons]
    have hup : DecBlockM.outSize
        (.up ⟨ch, ch', some (Conv3dM.mk3d ch (ch' * 8) 3 1 1)⟩) s = 2 * s := by
      simp [DecBlockM.outSize, UpsampleBlock3dM.outSize, conv311_outSize ch (ch' * 8) s hs]
    rw [hup, decBlocksPure_outSize n (ch' :: rest) (2 * s) (by omega)]
    have e1 : (ch' :: rest).length - 1 = rest.length := by simp
    have e2 : (ch :: ch' :: rest).length - 1 = rest.length + 1 := by simp
    rw [e1, e2, pow_succ]
    ring

/-! ### Parameter-dtype predicates -/

/-- The dtype of a normalization layer's parameters. -/
def NormM.dtypeOf : NormM → DType
  | .group _ _ t => t
  | .layer _ t => t

/-- All parameters of a residual block have dtype `t`. -/
def ResBlockM.paramsAre (t : DType) (r : ResBlockM) : Bool :=
  decide (r.norm1.dtypeOf = t) && decide (r.norm2.dtypeOf = t) &&
    decide (r.conv1.dtype = t) && decide (r.conv2.dtype = t) &&
    (match r.skip_connection with
     | none => true
     | some c => decide (c.dtype = t))

/-- All parameters of a downsample block have dtype `t` (vacuous in
`"avgpool"` mode, which has no parameters). -/
def DownsampleBlock3dM.paramsAre (t : DType) (d : DownsampleBlock3dM) : Bool :=
  match d.conv with
  | none => true
  | some c => decide (c.dtype = t)

/-- All parameters of an upsample block have dtype `t`. -/
def UpsampleBlock3dM.paramsAre (t : DType) (u : UpsampleBlock3dM) : Bool :=
  match u.conv with
  | none => true
  | some c => decide (c.dtype = t)

/-- All parameters of a staged encoder block have dtype `t`. -/
def EncBlockM.paramsAre (t : DType) : EncBlockM → Bool
  | .res r => r.paramsAre t
  | .down d => d.paramsAre t

/-- All parameters of a staged decoder block have dtype `t`. -/
def DecBlockM.paramsAre (t : DType) : DecBlockM → Bool
  | .res r => r.paramsAre t
  | .up u => u.paramsAre t

/-- All parameters of an `out_layer` have dtype `t`. -/
def OutLayerM.paramsAre (t : DType) (o : OutLayerM) : Bool :=
  decide (o.norm.dtypeOf = t) && decide (o.conv.dtype = t)

theorem NormM.dtypeOf_toDtype (t : DType) (n : NormM) : (n.toDtype t).dtypeOf = t := by
  cases n <;> rfl

theorem resParamsAre_toDtype (t : DType) (r : ResBlockM) :
    (r.toDtype t).paramsAre t = true := by
  cases r with
  | mk c oc n1 n2 c1 c2 sk =>
    cases sk <;>
      simp [ResBlockM.paramsAre, ResBlockM.toDtype, NormM.dtypeOf_toDtype,
        Conv3dM.toDtype]

theorem downParamsAre_toDtype (t : DType) (d : DownsampleBlock3dM) :
    (d.toDtype t).paramsAre t = true := by
  cases d with
  | mk i o c =>
    cases c <;> simp [DownsampleBlock3dM.paramsAre, DownsampleBlock3dM.toDtype,
      Conv3dM.toDtype]

theorem upParamsAre_toDtype (t : DType) (u : UpsampleBlock3dM) :
    (u.toDtype t).paramsAre t = true := by
  cases u with
  | mk i o c =>
    cases c <;> simp [UpsampleBlock3dM.paramsAre, UpsampleBlock3dM.toDtype,
      Conv3dM.toDtype]

theorem encBlockParamsAre_toDtype (t : DType) (b : EncBlockM) :
    (b.toDtype t).paramsAre t = true := by
  cases b with
  | res r => exact resParamsAre_toDtype t r
  | down d => exact downParamsAre_toDtype t d

theorem decBlockParamsAre_toDtype (t : DType) (b : DecBlockM) :
    (b.toDtype t).paramsAre t = true := by
  cases b with
  | res r => exact resParamsAre_toDtype t r
  | up u => exact upParamsAre_toDtype t u

theorem outLayerParamsAre_toDtype (t : DType) (o : OutLayerM) :
    (o.toDtype t).paramsAre t = true := by
  simp [OutLayerM.paramsAre, OutLayerM.toDtype, NormM.dtypeOf_toDtype, Conv3dM.toDtype]

/-! ### Shape semantics is unaffected by dtype casts -/

theorem convOutSize_toDtype (t : DType) (c : Conv3dM) (s : Nat) :
    (c.toDtype t).outSize s = c.outSize s := rfl

theorem resOutSize_toDtype (t : DType) (r : ResBlockM) (s : Nat) :
    (r.toDtype t).outSize s = r.outSize s := rfl

theorem downOutSize_toDtype (t : DType) (d : DownsampleBlock3dM) (s : Nat) :
    (d.toDtype t).outSize s = d.outSize s := by
  cases d with
  | mk i o c => cases c <;> rfl

theorem upOutSize_toDtype (t : DType) (u : UpsampleBlock3dM) (s : Nat) :
    (u.toDtype t).outSize s = u.outSize s := by
  cases u with
  | mk i o c => cases c <;> rfl

theorem encBlockOutSize_toDtype (t : DType) (b : EncBlockM) (s : Nat) :
    (b.toDtype t).outSize s = b.outSize s := by
  cases b with
  | res r => rfl
  | down d => exact downOutSize_toDtype t d s

theorem decBlockOutSize_toDtype (t : DType) (b : DecBlockM) (s : Nat) :
    (b.toDtype t).outSize s = b.outSize s := by
  cases b with
  | res r => rfl
  | up u => exact upOutSize_toDtype t u s

theorem foldl_encBlocks_toDtype (t : DType) (bs : List EncBlockM) :
    ∀ s : Nat, (bs.map (EncBlockM.toDtype t)).foldl (fun a b => b.outSize a) s
      = bs.foldl (fun a b => b.outSize a) s := by
  induction bs with
  | nil => intro s; rfl
  | cons b bs ih =>
    intro s
    simp only [List.map_cons, List.foldl_cons, encBlockOutSize_toDtype]
    exact ih _

theorem foldl_decBlocks_toDtype (t : DType) (bs : List DecBlockM) :
    ∀ s : Nat, (bs.map (DecBlockM.toDtype t)).foldl (fun a b => b.outSize a) s
      = bs.foldl (fun a b => b.outSize a) s := by
  induction bs with
  | nil => intro s; rfl
  | cons b bs ih =>
    intro s
    simp only [List.map_cons, List.foldl_cons, decBlockOutSize_toDtype]
    exact ih _

theorem foldl_resBlocks_toDtype (t : DType) (rs : List ResBlockM) :
    ∀ s : Nat, (rs.map (ResBlockM.toDtype t)).foldl (fun a r => r.outSize a) s
      = rs.foldl (fun a r => r.outSize a) s := by
  induction rs with
  | nil => intro s; rfl
  | cons r rs ih =>
    intro s
    simp only [List.map_cons, List.foldl_cons, resOutSize_toDtype]
    exact ih _

theorem encForwardSize_fp16 (e : SparseStructureEncoderM) (s : Nat) :
    e.convert_to_fp16.forwardSize s = e.forwardSize s := by
  simp only [SparseStructureEncoderM.forwardSize, SparseStructureEncoderM.convert_to_fp16,
    foldl_encBlocks_toDtype, foldl_resBlocks_toDtype]

theorem decForwardSize_fp16 (d : SparseStructureDecoderM) (s : Nat) :
    d.convert_to_fp16.forwardSize s = d.forwardSize s := by
  simp only [SparseStructureDecoderM.forwardSize, SparseStructureDecoderM.convert_to_fp16,
    foldl_decBlocks_toDtype, foldl_resBlocks_toDtype,
    OutLayerM.toDtype, convOutSize_toDtype]

theorem freshEncoderM_forwardSize (a l n : Nat) (ch : List Nat) (m : Nat)
    (nt : String) (fp : Bool) (outNorm : NormM) (s : Nat) (hs : 0 < s)
    (hdvd : 2 ^ (ch.length - 1) ∣ s) :
    (freshEncoderM a l n ch m nt fp outNorm).forwardSize s
      = s / 2 ^ (ch.length - 1) := by
  have hs2 : 0 < s / 2 ^ (ch.length - 1) :=
    Nat.div_pos (Nat.le_of_dvd hs hdvd) (pow_pos (by norm_num) _)
  simp only [SparseStructureEncoderM.forwardSize, freshEncoderM,
    conv311_outSize _ _ s hs,
    encBlocksPure_outSize n ch s hs hdvd,
    foldl_resBlocks_outSize _ m _ hs2,
    conv311_outSize _ _ _ hs2]

theorem freshDecoderM_forwardSize (a l n : Nat) (ch : List Nat) (m : Nat)
    (nt : String) (fp : Bool) (outNorm : NormM) (s : Nat) (hs : 0 < s) :
    (freshDecoderM a l n ch m nt fp outNorm).forwardSize s
      = s * 2 ^ (ch.length - 1) := by
  have hs2 : 0 < s * 2 ^ (ch.length - 1) :=
    Nat.mul_pos hs (pow_pos (by norm_num) _)
  simp only [SparseStructureDecoderM.forwardSize, freshDecoderM,
    conv311_outSize _ _ s hs,
    foldl_resBlocks_outSize _ m s hs,
    decBlocksPure_outSize n ch s hs,
    conv311_outSize _ _ _ hs2]

/-! ### Value semantics of `ResBlock3d.forward`

Rational-valued tensors indexed by channel and three spatial coordinates.
The normalization layers (external `GroupNorm32`/`ChannelLayerNorm32`) and the
`F.silu` nonlinearity are taken as function parameters: the claim settled here
(zero-initialized second convolution makes the block the identity) holds for
every choice of them. -/

/-- A (channel, depth, height, width)-indexed rational tensor. -/
def Tensor (c d h w : Nat) : Type :=
  Fin c → Fin d → Fin h → Fin w → ℚ

/-- Value of a zero-padded tensor at integer spatial coordinates: the tensor's
value inside the spatial bounds, `0` outside (torch's `padding=p` zero pad). -/
def padVal {c d h w : Nat} (t : Tensor c d h w) (ci : Fin c) (x y z : ℤ) : ℚ :=
  if hb : 0 ≤ x ∧ x < (d : ℤ) ∧ 0 ≤ y ∧ y < (h : ℤ) ∧ 0 ≤ z ∧ z < (w : ℤ) then
    t ci ⟨x.toNat, by omega⟩ ⟨y.toNat, by omega⟩ ⟨z.toNat, by omega⟩
  else 0

/-- Parameters of an `nn.Conv3d` with cubic kernel `k`: a weight per
(output channel, input channel, kernel offset) and a bias per output channel. -/
structure Conv3dW (cin cout k : Nat) where
  weight : Fin cout → Fin cin → Fin k → Fin k → Fin k → ℚ
  bias : Fin cout → ℚ

/-- The all-zero convolution parameters. -/
def Conv3dW.zeroW (cin cout k : Nat) : Conv3dW cin cout k :=
  ⟨fun _ _ _ _ _ => 0, fun _ => 0⟩

/-- Modelled from the spec: `zero_module` from `...modules.utils`, the
"zero-initialization utility" — it returns its argument module with all
parameters set to zero. -/
def zero_module {cin cout k : Nat} (_K : Conv3dW cin cout k) : Conv3dW cin cout k :=
  Conv3dW.zeroW cin cout k

/-- Stride-1 3D convolution with cubic kernel `k` and padding `p` (the only
configurations `ResBlock3d.forward` uses are `k=3, p=1` and the `k=1, p=0`
shortcut, both of which preserve the spatial shape). -/
def conv3dV {cin cout k d h w : Nat} (p : Nat) (K : Conv3dW cin cout k)
    (t : Tensor cin d h w) : Tensor cout d h w :=
  fun co x y z =>
    K.bias co + ∑ ci : Fin cin, ∑ i : Fin k, ∑ j : Fin k, ∑ l : Fin k,
      K.weight co ci i j l *
        padVal t ci ((x : ℤ) + i - p) ((y : ℤ) + j - p) ((z : ℤ) + l - p)

/-- Elementwise application of a scalar function (e.g. `F.silu`). -/
def mapT {c d h w : Nat} (f : ℚ → ℚ) (t : Tensor c d h w) : Tensor c d h w :=
  fun ci x y z => f (t ci x y z)

/-- Elementwise tensor addition. -/
def addT {c d h w : Nat} (t u : Tensor c d h w) : Tensor c d h w :=
  fun ci x y z => t ci x y z + u ci x y z

/-- The shortcut path of a `ResBlock3d`: `nn.Identity()` when
`channels == out_channels`, otherwise a learned 1×1×1 convolution. -/
inductive SkipV (cin cout d h w : Nat) where
  | ident (hc : cin = cout)
  | proj (K : Conv3dW cin cout 1)

/-- Application of the shortcut path. -/
def SkipV.apply {cin cout d h w : Nat} :
    SkipV cin cout d h w → Tensor cin d h w → Tensor cout d h w
  | .ident hc, t => hc ▸ t
  | .proj K, t => conv3dV 0 K t

/-- Value-level state of a `ResBlock3d`: the two normalization layers (taken
as abstract functions, since their code is outside this file's module), the
two 3×3×3 convolutions and the shortcut. -/
structure ResBlock3dV (cin cout d h w : Nat) where
  norm1 : Tensor cin d h w → Tensor cin d h w
  norm2 : Tensor cout d h w → Tensor cout d h w
  conv1 : Conv3dW cin cout 3
  conv2 : Conv3dW cout cout 3
  skip_connection : SkipV cin cout d h w

/-- Embeds `ResBlock3d.forward`: norm1 → silu → conv1 → norm2 → silu → conv2,
then add the shortcut of the input. -/
def ResBlock3dV.forward {cin cout d h w : Nat} (silu : ℚ → ℚ)
    (B : ResBlock3dV cin cout d h w) (x : Tensor cin d h w) : Tensor cout d h w :=
  let h1 := B.norm1 x
  let h2 := mapT silu h1
  let h3 := conv3dV 1 B.conv1 h2
  let h4 := B.norm2 h3
  let h5 := mapT silu h4
  let h6 := conv3dV 1 B.conv2 h5
  addT h6 (B.skip_connection.apply x)

/-- Embeds `ResBlock3d.__init__` at the value level: the fresh `conv2` is
wrapped in `zero_module`, and the shortcut is the identity exactly when
`channels == out_channels` (with Python's `out_channels or channels`
fallback).  The freshly (randomly) initialized parameters of `conv1` and of
the projection shortcut are taken as arguments. -/
def ResBlock3dV.init (channels : Nat) (o : Option Nat) (d h w : Nat)
    (norm1F : Tensor channels d h w → Tensor channels d h w)
    (norm2F : Tensor (pyOr o channels) d h w → Tensor (pyOr o channels) d h w)
    (conv1W : Conv3dW channels (pyOr o channels) 3)
    (conv2W : Conv3dW (pyOr o channels) (pyOr o channels) 3)
    (projW : Conv3dW channels (pyOr o channels) 1) :
    ResBlock3dV channels (pyOr o channels) d h w :=
  { norm1 := norm1F
    norm2 := norm2F
    conv1 := conv1W
    conv2 := zero_module conv2W
    skip_connection :=
      if hc : channels = pyOr o channels then .ident hc else .proj projW }

theorem conv3dV_zeroW {cin cout k d h w : Nat} (p : Nat) (t : Tensor cin d h w) :
    conv3dV p (Conv3dW.zeroW cin cout k) t = fun _ _ _ _ => (0 : ℚ) := by
  funext co x y z
  simp [conv3dV, Conv3dW.zeroW]

/-! ### Value semantics of the `DenseShapeVAE` entry points

Tensors whose shape plays no role here are flat rational-valued index
functions (`VTensor`); the decoder's output is a batch (list) of
single-channel 3D grids (`Grid3`), matching the per-item `squeeze(0)` in the
mesh-extraction paths.  The encoder and decoder networks appear as function
fields of the wrapper: they are owned sub-modules whose internals the claims
about the wrapper do not depend on.  Torch's elementwise `sigmoid` and
skimage's `measure.marching_cubes` are third-party primitives, passed as
explicit function parameters `σ` and `MC`. -/

/-- A flat rational tensor. -/
def VTensor : Type := Nat → ℚ

/-- One batch item of the decoder output: a single-channel 3D value grid with
its spatial extents (`val` is read only inside the extents). -/
structure Grid3 where
  dimD : Nat
  dimH : Nat
  dimW : Nat
  val : Nat → Nat → Nat → ℚ

/-- A triangle mesh: vertex positions and triangular face index triples, as
assembled by `trimesh.Trimesh(vertices, faces)`. -/
structure Mesh where
  vertices : List (ℚ × ℚ × ℚ)
  faces : List (Nat × Nat × Nat)

/-- The type of the external `skimage.measure.marching_cubes` call (`lewiner`
method): an occupancy grid and an isosurface level in, raw vertices (in voxel
coordinates) and faces out. -/
def MCFun : Type := Grid3 → ℚ → List (ℚ × ℚ × ℚ) × List (Nat × Nat × Nat)

/-- Embeds `occ = x[i].sigmoid(); occ = (occ >= thr).float()`: the binarized
occupancy grid, `1` where `σ` of the logit is at least `thr`, else `0`. -/
def binGrid (σ : ℚ → ℚ) (thr : ℚ) (g : Grid3) : Grid3 :=
  ⟨g.dimD, g.dimH, g.dimW, fun i j k => if thr ≤ σ (g.val i j k) then 1 else 0⟩

/-- Embeds `index = occ.unsqueeze(0).nonzero()` on the binarized occupancy of
`decode_mesh`'s `return_index` path: the list of voxel coordinates whose
sigmoid probability is at least `thr` (the leading constant-0 axis index from
`unsqueeze(0)` is dropped). -/
def gridIndices (σ : ℚ → ℚ) (thr : ℚ) (g : Grid3) : List (Nat × Nat × Nat) :=
  (List.range g.dimD).flatMap fun i =>
    (List.range g.dimH).flatMap fun j =>
      (List.range g.dimW).filterMap fun k =>
        if thr ≤ σ (g.val i j k) then some (i, j, k) else none

/-- The rescale `vertices = vertices / voxel_resolution * 2 - 1` applied to
one raw marching-cubes vertex. -/
def rescaleVertex (R : Nat) (v : ℚ × ℚ × ℚ) : ℚ × ℚ × ℚ :=
  (v.1 / R * 2 - 1, v.2.1 / R * 2 - 1, v.2.2 / R * 2 - 1)

/-- Modelled from the spec: the external `DiagonalGaussianDistribution`
(from `.distributions`, not part of this module's code), built over the
encoder output with `feat_dim=1`; it offers `sample()` and `mode()` over the
channel-split mean/log-variance tensor.  It is represented by its parameter
tensor; the two accessors are taken as function parameters where used. -/
structure DiagonalGaussianDistribution where
  params : VTensor

/-- The input batch: a mapping with at least a `dense_index` voxel-grid
entry. -/
structure Batch where
  dense_index : VTensor

/-- Value-level state of a `DenseShapeVAE`: the two stored latent rescaling
coefficients and the owned encoder/decoder networks (as their forward
functions; the claims about the wrapper hold for every choice of network
parameters). -/
structure DenseShapeVAE where
  latents_scale : ℚ
  latents_shift : ℚ
  encoderF : VTensor → VTensor
  decoderF : VTensor → List Grid3

/-- Embeds `DenseShapeVAE.encode`: rescale `dense_index` to `[-1, 1]`, run the
encoder, wrap the output in a `DiagonalGaussianDistribution`, then `sample()`
(applied to fresh `noise`) or `mode()` according to `sample_posterior`. -/
def DenseShapeVAE.encode (vae : DenseShapeVAE)
    (sampleF : VTensor → VTensor → VTensor) (modeF : VTensor → VTensor)
    (noise : VTensor) (batch : Batch) (sample_posterior : Bool := true) :
    VTensor × DiagonalGaussianDistribution :=
  let x : VTensor := fun i => batch.dense_index i * 2 - 1
  let h := vae.encoderF x
  let posterior : DiagonalGaussianDistribution := ⟨h⟩
  let z := if sample_posterior then sampleF h noise else modeF h
  (z, posterior)

/-- Embeds `DenseShapeVAE.forward`: encode (sampling the posterior), decode,
and bundle the reconstruction with the posterior. -/
def DenseShapeVAE.forward (vae : DenseShapeVAE)
    (sampleF : VTensor → VTensor → VTensor) (modeF : VTensor → VTensor)
    (noise : VTensor) (batch : Batch) :
    List Grid3 × DiagonalGaussianDistribution :=
  let zp := vae.encode sampleF modeF noise batch
  (vae.decoderF zp.1, zp.2)

/-- Embeds `DenseShapeVAE.dense2mesh`: per batch item, sigmoid, binarize
against the hardcoded threshold `0.1`, run marching cubes at isosurface level
`mc_threshold`, rescale the vertices by `v / voxel_resolution * 2 - 1` and
assemble the mesh.  (`self` is unused by the source body.) -/
def DenseShapeVAE.dense2mesh (_vae : DenseShapeVAE) (σ : ℚ → ℚ) (MC : MCFun)
    (x : List Grid3) (voxel_resolution : Nat := 64) (mc_threshold : ℚ := 1/2) :
    List Mesh :=
  x.map fun g =>
    let occ := binGrid σ (1/10) g
    let vf := MC occ mc_threshold
    ⟨vf.1.map (rescaleVertex voxel_resolution), vf.2⟩

/-- The two possible results of `decode_mesh`: coordinate-index tensors or
meshes. -/
inductive DecodeOut where
  | indices (idx : List (List (Nat × Nat × Nat)))
  | meshes (ms : List Mesh)

/-- Embeds `DenseShapeVAE.decode_mesh`: decode the latents, then either
extract per-item occupied-voxel indices (binarizing the sigmoid against
`mc_threshold`) or hand the raw decoder output to `dense2mesh`. -/
def DenseShapeVAE.decode_mesh (vae : DenseShapeVAE) (σ : ℚ → ℚ) (MC : MCFun)
    (latents : VTensor) (voxel_resolution : Nat := 64) (mc_threshold : ℚ := 1/2)
    (return_index : Bool := false) : DecodeOut :=
  let x := vae.decoderF latents
  if return_index then
    .indices (x.map fun g => gridIndices σ mc_threshold g)
  else
    .meshes (vae.dense2mesh σ MC x voxel_resolution mc_threshold)

/-! ## The claims -/

theorem DownsampleBlock3dM.init_avgpool_eq (i : Nat) :
    DownsampleBlock3dM.init i i "avgpool" = .ok ⟨i, i, none⟩ := by
  simp [DownsampleBlock3dM.init]
  rfl

theorem DownsampleBlock3dM.init_avgpool_ne (i o : Nat) (hio : i ≠ o) :
    DownsampleBlock3dM.init i o "avgpool" =
      .error "Pooling mode requires in_channels to be equal to out_channels" := by
  simp [DownsampleBlock3dM.init, hio]
  rfl

theorem UpsampleBlock3dM.init_nearest_eq (i : Nat) :
    UpsampleBlock3dM.init i i "nearest" = .ok ⟨i, i, none⟩ := by
  simp [UpsampleBlock3dM.init]
  rfl

theorem UpsampleBlock3dM.init_nearest_ne (i o : Nat) (hio : i ≠ o) :
    UpsampleBlock3dM.init i o "nearest" =
      .error "Nearest mode requires in_channels to be equal to out_channels" := by
  simp [UpsampleBlock3dM.init, hio]
  rfl

theorem encInit_ok_of_norm (a l n m : Nat) (ch : List Nat) (nt : String) (fp : Bool)
    (nrm : NormM) (hnrm : norm_layer nt ch.getLastI = .ok nrm) :
    ∃ v, SparseStructureEncoderM.init a l n ch m nt fp = .ok v := by
  rw [encInit_eq, hnrm]
  exact ⟨_, rfl⟩

theorem decInit_ok_of_norm (a l n m : Nat) (ch : List Nat) (nt : String) (fp : Bool)
    (nrm : NormM) (hnrm : norm_layer nt ch.getLastI = .ok nrm) :
    ∃ v, SparseStructureDecoderM.init a l n ch m nt fp = .ok v := by
  rw [decInit_eq, hnrm]
  exact ⟨_, rfl⟩

/-- C6: for every normalization-kind string other than `"group"` and
`"layer"`, constructing a `ResBlock3d`, a `SparseStructureEncoder` or a
`SparseStructureDecoder` with that `norm_type` raises a `ValueError` at
construction (via `norm_layer`), and for the two recognized kinds no such
error is raised. -/
theorem claim_C6 (s : String) (hs1 : s ≠ "group") (hs2 : s ≠ "layer")
    (c a l n m : Nat) (o : Option Nat) (ch : List Nat) (fp : Bool) :
    (∃ msg, norm_layer s c = .error msg) ∧
    (∃ msg, ResBlockM.init c o s = .error msg) ∧
    (∃ msg, SparseStructureEncoderM.init a l n ch m s fp = .error msg) ∧
    (∃ msg, SparseStructureDecoderM.init a l n ch m s fp = .error msg) ∧
    (∃ v, ResBlockM.init c o "group" = .ok v) ∧
    (∃ v, ResBlockM.init c o "layer" = .ok v) ∧
    (∃ v, SparseStructureEncoderM.init a l n ch m "group" fp = .ok v) ∧
    (∃ v, SparseStructureEncoderM.init a l n ch m "layer" fp = .ok v) ∧
    (∃ v, SparseStructureDecoderM.init a l n ch m "group" fp = .ok v) ∧
    (∃ v, SparseStructureDecoderM.init a l n ch m "layer" fp = .ok v) := by
  have hn : ∀ k : Nat, norm_layer s k = .error ("Invalid norm type " ++ s) := by
    intro k
    simp [norm_layer, hs1, hs2]
  refine ⟨⟨_, hn c⟩,
    ⟨"Invalid norm type " ++ s, ?_⟩,
    ⟨"Invalid norm type " ++ s, ?_⟩,
    ⟨"Invalid norm type " ++ s, ?_⟩,
    ⟨_, rfl⟩, ⟨_, rfl⟩,
    encInit_ok_of_norm a l n m ch "group" fp _ rfl,
    encInit_ok_of_norm a l n m ch "layer" fp _ rfl,
    decInit_ok_of_norm a l n m ch "group" fp _ rfl,
    decInit_ok_of_norm a l n m ch "layer" fp _ rfl⟩
  · simp [ResBlockM.init, hn]
    rfl
  · rw [encInit_eq, hn]
    rfl
  · rw [decInit_eq, hn]
    rfl

/-- Witness for C6 at the concrete unrecognized kind `"batch"`. -/
theorem claim_C6_witness :
    (∃ msg, norm_layer "batch" 4 = .error msg) ∧
    (∃ msg, ResBlockM.init 4 none "batch" = .error msg) ∧
    (∃ msg, SparseStructureEncoderM.init 1 2 1 [4, 8] 1 "batch" false = .error msg) ∧
    (∃ msg, SparseStructureDecoderM.init 1 2 1 [4, 8] 1 "batch" false = .error msg) ∧
    (∃ v, ResBlockM.init 4 none "group" = .ok v) ∧
    (∃ v, ResBlockM.init 4 none "layer" = .ok v) ∧
    (∃ v, SparseStructureEncoderM.init 1 2 1 [4, 8] 1 "group" false = .ok v) ∧
    (∃ v, SparseStructureEncoderM.init 1 2 1 [4, 8] 1 "layer" false = .ok v) ∧
    (∃ v, SparseStructureDecoderM.init 1 2 1 [4, 8] 1 "group" false = .ok v) ∧
    (∃ v, SparseStructureDecoderM.init 1 2 1 [4, 8] 1 "layer" false = .ok v) :=
  claim_C6 "batch" (by decide) (by decide) 4 1 2 1 1 none [4, 8] false

/-- C7: `DownsampleBlock3d` in `"avgpool"` mode rejects construction when
`in_channels ≠ out_channels` (and accepts equal channels);
`UpsampleBlock3d` in `"nearest"` mode likewise; in `"conv"` mode both accept
any channel pair. -/
theorem claim_C7 (i o : Nat) :
    (i ≠ o → ∃ msg, DownsampleBlock3dM.init i o "avgpool" = .error msg) ∧
    (i = o → ∃ v, DownsampleBlock3dM.init i o "avgpool" = .ok v) ∧
    (i ≠ o → ∃ msg, UpsampleBlock3dM.init i o "nearest" = .error msg) ∧
    (i = o → ∃ v, UpsampleBlock3dM.init i o "nearest" = .ok v) ∧
    (∃ v, DownsampleBlock3dM.init i o "conv" = .ok v) ∧
    (∃ v, UpsampleBlock3dM.init i o "conv" = .ok v) := by
  refine ⟨?_, ?_, ?_, ?_, ⟨_, downInit_conv i o⟩,
    ⟨_, upInit_conv i o⟩⟩
  · intro hio
    exact ⟨_, DownsampleBlock3dM.init_avgpool_ne i o hio⟩
  · intro hio
    subst hio
    exact ⟨_, DownsampleBlock3dM.init_avgpool_eq i⟩
  · intro hio
    exact ⟨_, UpsampleBlock3dM.init_nearest_ne i o hio⟩
  · intro hio
    subst hio
    exact ⟨_, UpsampleBlock3dM.init_nearest_eq i⟩

/-- Witness for C7 at the concrete channel pairs (3, 5) and (4, 4). -/
theorem claim_C7_witness :
    (∃ msg, DownsampleBlock3dM.init 3 5 "avgpool" = .error msg) ∧
    (∃ v, DownsampleBlock3dM.init 4 4 "avgpool" = .ok v) ∧
    (∃ msg, UpsampleBlock3dM.init 3 5 "nearest" = .error msg) ∧
    (∃ v, UpsampleBlock3dM.init 4 4 "nearest" = .ok v) ∧
    (∃ v, DownsampleBlock3dM.init 3 5 "conv" = .ok v) ∧
    (∃ v, UpsampleBlock3dM.init 3 5 "conv" = .ok v) :=
  ⟨(claim_C7 3 5).1 (by decide), (claim_C7 4 4).2.1 (by decide),
   (claim_C7 3 5).2.2.1 (by decide), (claim_C7 4 4).2.2.2.1 (by decide),
   (claim_C7 3 5).2.2.2.2.1, (claim_C7 3 5).2.2.2.2.2⟩

/-- C1: in `decode_mesh` with `return_index=True`, each batch item's occupancy
is binarized by comparing the sigmoid of the decoder output against the
caller's `mc_threshold` (`t` here; the source default is `0.5`); in every call
of `dense2mesh`, each batch item is binarized against the hardcoded threshold
`0.1`, and the caller's `mc_threshold` is passed unchanged as the isosurface
level to the marching-cubes call.  Holds for every decoder, every elementwise
sigmoid `σ` and every marching-cubes implementation `MC`. -/
theorem claim_C1 (vae : DenseShapeVAE) (σ : ℚ → ℚ) (MC : MCFun)
    (latents : VTensor) (R : Nat) (t : ℚ) :
    (vae.decode_mesh σ MC latents R t true =
      .indices ((vae.decoderF latents).map fun g => gridIndices σ t g)) ∧
    (∀ g : Grid3, ∀ i j k : Nat,
      (i, j, k) ∈ gridIndices σ t g ↔
        i < g.dimD ∧ j < g.dimH ∧ k < g.dimW ∧ t ≤ σ (g.val i j k)) ∧
    (∀ x : List Grid3, vae.dense2mesh σ MC x R t = x.map fun g =>
      { vertices := (MC (binGrid σ (1/10) g) t).1.map (rescaleVertex R)
        faces := (MC (binGrid σ (1/10) g) t).2 }) ∧
    (vae.decode_mesh σ MC latents R t false =
      .meshes ((vae.decoderF latents).map fun g =>
        { vertices := (MC (binGrid σ (1/10) g) t).1.map (rescaleVertex R)
          faces := (MC (binGrid σ (1/10) g) t).2 })) := by
  refine ⟨rfl, ?_, fun x => rfl, rfl⟩
  intro g i j k
  simp only [gridIndices, List.mem_flatMap, List.mem_range, List.mem_filterMap]
  constructor
  · rintro ⟨i', hi', j', hj', k', hk', hif⟩
    by_cases hcase : t ≤ σ (g.val i' j' k')
    · rw [if_pos hcase] at hif
      obtain ⟨rfl, rfl, rfl⟩ : i' = i ∧ j' = j ∧ k' = k := by
        injection hif with h
        exact ⟨congrArg Prod.fst h, congrArg Prod.fst (congrArg Prod.snd h),
          congrArg Prod.snd (congrArg Prod.snd h)⟩
      exact ⟨hi', hj', hk', hcase⟩
    · rw [if_neg hcase] at hif
      exact absurd hif (by simp)
  · rintro ⟨hi, hj, hk, ht⟩
    exact ⟨i, hi, j, hj, k, hk, by rw [if_pos ht]⟩

/-- C2: a freshly constructed `ResBlock3d` with equal input/output channel
counts — so `conv2` is zero-initialized by `zero_module` and the shortcut is
`nn.Identity()` — maps every input tensor to itself, for every choice of the
normalization layers, of the (random) `conv1` parameters and of the
nonlinearity; and the fresh construction (`out_channels=None`, hence equal to
`channels`) does produce exactly that zeroed-`conv2`/identity-shortcut
state. -/
theorem claim_C2 (c d h w : Nat) (silu : ℚ → ℚ) :
    (∀ B : ResBlock3dV c c d h w,
      B.conv2 = Conv3dW.zeroW c c 3 →
      B.skip_connection = .ident rfl →
      ∀ x : Tensor c d h w, B.forward silu x = x) ∧
    (∀ (norm1F norm2F : Tensor c d h w → Tensor c d h w)
        (conv1W : Conv3dW c c 3) (conv2W : Conv3dW c c 3) (projW : Conv3dW c c 1),
      (ResBlock3dV.init c none d h w norm1F norm2F conv1W conv2W projW).conv2
          = Conv3dW.zeroW c c 3 ∧
      (ResBlock3dV.init c none d h w norm1F norm2F conv1W conv2W projW).skip_connection
          = .ident rfl ∧
      ∀ x : Tensor c d h w,
        (ResBlock3dV.init c none d h w norm1F norm2F conv1W conv2W projW).forward silu x
          = x) := by
  have main : ∀ B : ResBlock3dV c c d h w,
      B.conv2 = Conv3dW.zeroW c c 3 →
      B.skip_connection = .ident rfl →
      ∀ x : Tensor c d h w, B.forward silu x = x := by
    intro B h2 hs x
    show addT (conv3dV 1 B.conv2 _) (B.skip_connection.apply x) = x
    rw [h2, conv3dV_zeroW, hs]
    funext ci xx yy zz
    simp [addT, SkipV.apply]
  refine ⟨main, ?_⟩
  intro norm1F norm2F conv1W conv2W projW
  have hskip : (ResBlock3dV.init c none d h w norm1F norm2F conv1W conv2W projW).skip_connection
      = .ident rfl := by
    show (if hc : c = pyOr none c then SkipV.ident hc else SkipV.proj projW) = .ident rfl
    exact dif_pos rfl
  exact ⟨rfl, hskip, main _ rfl hskip⟩

/-- Witness for C2: a concrete fresh 1-channel 1×1×1 residual block with
nonzero `conv1` parameters and a nontrivial normalization maps the constant-5
tensor to itself. -/
theorem claim_C2_witness :
    (ResBlock3dV.init 1 none 1 1 1 (fun t => t) (fun t => mapT (fun q => q + 7) t)
        ⟨fun _ _ _ _ _ => 2, fun _ => 3⟩ ⟨fun _ _ _ _ _ => 4, fun _ => 5⟩
        ⟨fun _ _ _ _ _ => 6, fun _ => 1⟩).forward (fun q => q * q)
      (fun _ _ _ _ => 5) = fun _ _ _ _ => 5 :=
  (claim_C2 1 1 1 1 (fun q => q * q)).1 _ rfl rfl _

/-- C4: two `DenseShapeVAE` instances that share the same encoder and decoder
networks but have arbitrary (possibly different) `latents_scale` and
`latents_shift` produce equal results from `encode`, `forward`, `decode_mesh`
and `dense2mesh`: the two coefficients are stored but never applied in any of
those paths. -/
theorem claim_C4 (v1 v2 : DenseShapeVAE)
    (hE : v1.encoderF = v2.encoderF) (hD : v1.decoderF = v2.decoderF)
    (sampleF : VTensor → VTensor → VTensor) (modeF : VTensor → VTensor)
    (noise : VTensor) (batch : Batch) (sp : Bool) (σ : ℚ → ℚ) (MC : MCFun)
    (latents : VTensor) (R : Nat) (t : ℚ) (ri : Bool) (x : List Grid3) :
    v1.encode sampleF modeF noise batch sp = v2.encode sampleF modeF noise batch sp ∧
    v1.forward sampleF modeF noise batch = v2.forward sampleF modeF noise batch ∧
    v1.decode_mesh σ MC latents R t ri = v2.decode_mesh σ MC latents R t ri ∧
    v1.dense2mesh σ MC x R t = v2.dense2mesh σ MC x R t := by
  refine ⟨?_, ?_, ?_, rfl⟩
  · simp only [DenseShapeVAE.encode, hE]
  · simp only [DenseShapeVAE.forward, DenseShapeVAE.encode, hE, hD]
  · simp only [DenseShapeVAE.decode_mesh, DenseShapeVAE.dense2mesh, hD]

/-- Witness for C4: two concrete wrappers sharing networks but with
`latents_scale` 1 vs 2 and `latents_shift` 0 vs 5 agree on all four entry
points at concrete inputs. -/
theorem claim_C4_witness :
    (DenseShapeVAE.mk 1 0 (fun v => v) (fun _ => [])).encode
        (fun hE _ => hE) (fun hE => hE) (fun _ => 0) ⟨fun _ => 3⟩ true
      = (DenseShapeVAE.mk 2 5 (fun v => v) (fun _ => [])).encode
        (fun hE _ => hE) (fun hE => hE) (fun _ => 0) ⟨fun _ => 3⟩ true ∧
    (DenseShapeVAE.mk 1 0 (fun v => v) (fun _ => [])).forward
        (fun hE _ => hE) (fun hE => hE) (fun _ => 0) ⟨fun _ => 3⟩
      = (DenseShapeVAE.mk 2 5 (fun v => v) (fun _ => [])).forward
        (fun hE _ => hE) (fun hE => hE) (fun _ => 0) ⟨fun _ => 3⟩ ∧
    (DenseShapeVAE.mk 1 0 (fun v => v) (fun _ => [])).decode_mesh
        (fun q => q) (fun _ _ => ([], [])) (fun _ => 0) 64 (1/2) true
      = (DenseShapeVAE.mk 2 5 (fun v => v) (fun _ => [])).decode_mesh
        (fun q => q) (fun _ _ => ([], [])) (fun _ => 0) 64 (1/2) true ∧
    (DenseShapeVAE.mk 1 0 (fun v => v) (fun _ => [])).dense2mesh
        (fun q => q) (fun _ _ => ([], [])) [] 64 (1/2)
      = (DenseShapeVAE.mk 2 5 (fun v => v) (fun _ => [])).dense2mesh
        (fun q => q) (fun _ _ => ([], [])) [] 64 (1/2) :=
  claim_C4 (DenseShapeVAE.mk 1 0 (fun v => v) (fun _ => []))
    (DenseShapeVAE.mk 2 5 (fun v => v) (fun _ => [])) rfl rfl
    (fun hE _ => hE) (fun hE => hE) (fun _ => 0) ⟨fun _ => 3⟩ true
    (fun q => q) (fun _ _ => ([], [])) (fun _ => 0) 64 (1/2) true []

/-- C5: `SparseStructureEncoder.convert_to_fp16` converts only the torso (the
staged blocks and the middle residual stack) to float16, leaving `input_layer`
and `out_layer` untouched (hence still float32 when they were float32);
`SparseStructureDecoder.convert_to_fp16` converts the entire module, including
its input and output projection layers. -/
theorem claim_C5 (e : SparseStructureEncoderM) (d : SparseStructureDecoderM) :
    (e.convert_to_fp16.input_layer = e.input_layer) ∧
    (e.convert_to_fp16.out_layer = e.out_layer) ∧
    (e.input_layer.dtype = .f32 → e.convert_to_fp16.input_layer.dtype = .f32) ∧
    (e.out_layer.paramsAre .f32 = true →
      e.convert_to_fp16.out_layer.paramsAre .f32 = true) ∧
    (∀ b ∈ e.convert_to_fp16.blocks, b.paramsAre .f16 = true) ∧
    (∀ r ∈ e.convert_to_fp16.middle_block, r.paramsAre .f16 = true) ∧
    (d.convert_to_fp16.input_layer.dtype = .f16) ∧
    (d.convert_to_fp16.out_layer.paramsAre .f16 = true) ∧
    (∀ b ∈ d.convert_to_fp16.blocks, b.paramsAre .f16 = true) ∧
    (∀ r ∈ d.convert_to_fp16.middle_block, r.paramsAre .f16 = true) := by
  refine ⟨rfl, rfl, fun hq => hq, fun hq => hq, ?_, ?_, rfl,
    outLayerParamsAre_toDtype .f16 d.out_layer, ?_, ?_⟩
  · intro b hb
    obtain ⟨b', _, rfl⟩ := List.mem_map.mp hb
    exact encBlockParamsAre_toDtype .f16 b'
  · intro r hr
    obtain ⟨r', _, rfl⟩ := List.mem_map.mp hr
    exact resParamsAre_toDtype .f16 r'
  · intro b hb
    obtain ⟨b', _, rfl⟩ := List.mem_map.mp hb
    exact decBlockParamsAre_toDtype .f16 b'
  · intro r hr
    obtain ⟨r', _, rfl⟩ := List.mem_map.mp hr
    exact resParamsAre_toDtype .f16 r'

/-- Witness for C5 at concrete freshly constructed (float32) encoder and
decoder states. -/
theorem claim_C5_witness :
    ((freshEncoderM 1 1 1 [2] 1 "layer" false (NormM.layer 2 .f32)).convert_to_fp16.input_layer.dtype
      = .f32) ∧
    ((freshEncoderM 1 1 1 [2] 1 "layer" false (NormM.layer 2 .f32)).convert_to_fp16.out_layer.paramsAre .f32
      = true) ∧
    ((freshDecoderM 1 1 1 [2] 1 "layer" false (NormM.layer 2 .f32)).convert_to_fp16.input_layer.dtype
      = .f16) ∧
    ((freshDecoderM 1 1 1 [2] 1 "layer" false (NormM.layer 2 .f32)).convert_to_fp16.out_layer.paramsAre .f16
      = true) :=
  ⟨(claim_C5 (freshEncoderM 1 1 1 [2] 1 "layer" false (NormM.layer 2 .f32))
      (freshDecoderM 1 1 1 [2] 1 "layer" false (NormM.layer 2 .f32))).2.2.1 rfl,
   (claim_C5 (freshEncoderM 1 1 1 [2] 1 "layer" false (NormM.layer 2 .f32))
      (freshDecoderM 1 1 1 [2] 1 "layer" false (NormM.layer 2 .f32))).2.2.2.1 (by decide),
   (claim_C5 (freshEncoderM 1 1 1 [2] 1 "layer" false (NormM.layer 2 .f32))
      (freshDecoderM 1 1 1 [2] 1 "layer" false (NormM.layer 2 .f32))).2.2.2.2.2.2.1,
   (claim_C5 (freshEncoderM 1 1 1 [2] 1 "layer" false (NormM.layer 2 .f32))
      (freshDecoderM 1 1 1 [2] 1 "layer" false (NormM.layer 2 .f32))).2.2.2.2.2.2.2.1⟩

/-- C10: on a `SparseStructureDecoder`, `convert_to_fp16` followed by
`convert_to_fp32` is not the identity on parameter dtypes: `convert_to_fp32`
restores only the staged blocks and the middle residual stack to float32,
while `input_layer` and `out_layer` stay float16. -/
theorem claim_C10 (d : SparseStructureDecoderM) :
    (d.convert_to_fp16.convert_to_fp32.input_layer.dtype = .f16) ∧
    (d.convert_to_fp16.convert_to_fp32.out_layer.paramsAre .f16 = true) ∧
    (∀ b ∈ d.convert_to_fp16.convert_to_fp32.blocks, b.paramsAre .f32 = true) ∧
    (∀ r ∈ d.convert_to_fp16.convert_to_fp32.middle_block, r.paramsAre .f32 = true) ∧
    (d.input_layer.dtype = .f32 → d.convert_to_fp16.convert_to_fp32 ≠ d) := by
  refine ⟨rfl, outLayerParamsAre_toDtype .f16 d.out_layer, ?_, ?_, ?_⟩
  · intro b hb
    obtain ⟨b', _, rfl⟩ := List.mem_map.mp hb
    exact decBlockParamsAre_toDtype .f32 b'
  · intro r hr
    obtain ⟨r', _, rfl⟩ := List.mem_map.mp hr
    exact resParamsAre_toDtype .f32 r'
  · intro h32 heq
    have h1 : d.convert_to_fp16.convert_to_fp32.input_layer.dtype = DType.f16 := rfl
    rw [heq, h32] at h1
    exact absurd h1 (by decide)

/-- Witness for C10 at a concrete freshly constructed (float32) decoder: the
fp16-then-fp32 round trip does not restore the original state. -/
theorem claim_C10_witness :
    (freshDecoderM 1 1 1 [2] 1 "layer" false (NormM.layer 2 .f32)).convert_to_fp16.convert_to_fp32
      ≠ freshDecoderM 1 1 1 [2] 1 "layer" false (NormM.layer 2 .f32) :=
  (claim_C10 (freshDecoderM 1 1 1 [2] 1 "layer" false (NormM.layer 2 .f32))).2.2.2.2 rfl

/-- The normalization layer is the channel-wise layer variant. -/
def NormM.IsLayer : NormM → Prop
  | .layer _ _ => True
  | .group _ _ _ => False

/-- Both normalizations of a residual block are the channel-wise layer
variant (the `ResBlock3d` default). -/
def ResBlockM.UsesLayerNorm (r : ResBlockM) : Prop :=
  r.norm1.IsLayer ∧ r.norm2.IsLayer

/-- A staged encoder block is either a downsample block or a residual block
using layer normalization. -/
def EncBlockM.ResUsesLayerNorm : EncBlockM → Prop
  | .res r => r.UsesLayerNorm
  | .down _ => True

/-- A staged decoder block is either an upsample block or a residual block
using layer normalization. -/
def DecBlockM.ResUsesLayerNorm : DecBlockM → Prop
  | .res r => r.UsesLayerNorm
  | .up _ => True

theorem freshResBlockM_usesLayerNorm (c oc : Nat) :
    (freshResBlockM c oc).UsesLayerNorm :=
  ⟨trivial, trivial⟩

theorem NormM.IsLayer_toDtype (t : DType) (n : NormM) :
    (n.toDtype t).IsLayer ↔ n.IsLayer := by
  cases n <;> rfl

theorem ResBlockM.UsesLayerNorm_toDtype (t : DType) (r : ResBlockM) :
    (r.toDtype t).UsesLayerNorm ↔ r.UsesLayerNorm := by
  simp [ResBlockM.UsesLayerNorm, ResBlockM.toDtype, NormM.IsLayer_toDtype]

theorem encBlockLayerNorm_toDtype (t : DType) (b : EncBlockM) :
    (b.toDtype t).ResUsesLayerNorm ↔ b.ResUsesLayerNorm := by
  cases b with
  | res r => exact ResBlockM.UsesLayerNorm_toDtype t r
  | down u => simp [EncBlockM.ResUsesLayerNorm, EncBlockM.toDtype]

theorem decBlockLayerNorm_toDtype (t : DType) (b : DecBlockM) :
    (b.toDtype t).ResUsesLayerNorm ↔ b.ResUsesLayerNorm := by
  cases b with
  | res r => exact ResBlockM.UsesLayerNorm_toDtype t r
  | up u => simp [DecBlockM.ResUsesLayerNorm, DecBlockM.toDtype]

theorem encBlocksPure_layerNorm (n : Nat) :
    ∀ channels : List Nat, ∀ b ∈ encBlocksPure n channels, b.ResUsesLayerNorm
  | [], b, hb => by simp [encBlocksPure] at hb
  | [ch], b, hb => by
    rw [encBlocksPure, List.map_replicate] at hb
    rw [List.eq_of_mem_replicate hb]
    exact freshResBlockM_usesLayerNorm ch ch
  | c1 :: c2 :: rest, b, hb => by
    rw [encBlocksPure, List.map_replicate] at hb
    rcases List.mem_append.mp hb with hb1 | hb2
    · rw [List.eq_of_mem_replicate hb1]
      exact freshResBlockM_usesLayerNorm c1 c1
    · rcases List.mem_cons.mp hb2 with rfl | hb3
      · trivial
      · exact encBlocksPure_layerNorm n (c2 :: rest) b hb3

theorem decBlocksPure_layerNorm (n : Nat) :
    ∀ channels : List Nat, ∀ b ∈ decBlocksPure n channels, b.ResUsesLayerNorm
  | [], b, hb => by simp [decBlocksPure] at hb
  | [ch], b, hb => by
    rw [decBlocksPure, List.map_replicate] at hb
    rw [List.eq_of_mem_replicate hb]
    exact freshResBlockM_usesLayerNorm ch ch
  | c1 :: c2 :: rest, b, hb => by
    rw [decBlocksPure, List.map_replicate] at hb
    rcases List.mem_append.mp hb with hb1 | hb2
    · rw [List.eq_of_mem_replicate hb1]
      exact freshResBlockM_usesLayerNorm c1 c1
    · rcases List.mem_cons.mp hb2 with rfl | hb3
      · trivial
      · exact decBlocksPure_layerNorm n (c2 :: rest) b hb3

/-- C9: the `norm_type` constructor argument of `SparseStructureEncoder` /
`SparseStructureDecoder` affects only the normalization inside `out_layer`:
every `ResBlock3d` in the staged blocks and in the middle residual stack is
constructed without a `norm_type` argument, so it uses the channel-wise layer
normalization default, even when the module is built with
`norm_type="group"`. -/
theorem claim_C9 (aE lE nE mE aD lD nD mD : Nat) (chE chD : List Nat)
    (nt : String) (fpE fpD : Bool)
    (e : SparseStructureEncoderM) (d : SparseStructureDecoderM)
    (nrmE nrmD : NormM)
    (he : SparseStructureEncoderM.init aE lE nE chE mE nt fpE = .ok e)
    (hd : SparseStructureDecoderM.init aD lD nD chD mD nt fpD = .ok d)
    (hnE : norm_layer nt chE.getLastI = .ok nrmE)
    (hnD : norm_layer nt chD.getLastI = .ok nrmD) :
    (∀ b ∈ e.blocks, b.ResUsesLayerNorm) ∧
    (∀ r ∈ e.middle_block, r.UsesLayerNorm) ∧
    (∀ b ∈ d.blocks, b.ResUsesLayerNorm) ∧
    (∀ r ∈ d.middle_block, r.UsesLayerNorm) ∧
    (e.out_layer.norm = nrmE) ∧
    (fpD = false → d.out_layer.norm = nrmD) := by
  rw [encInit_eq, hnE] at he
  rw [decInit_eq, hnD] at hd
  simp only [Except.map, Except.ok.injEq] at he hd
  subst he
  subst hd
  refine ⟨?_, ?_, ?_, ?_, ?_, ?_⟩
  · intro b hb
    cases fpE with
    | false =>
      exact encBlocksPure_layerNorm nE chE b hb
    | true =>
      obtain ⟨b', hb', rfl⟩ := List.mem_map.mp hb
      exact (encBlockLayerNorm_toDtype .f16 b').mpr (encBlocksPure_layerNorm nE chE b' hb')
  · intro r hr
    cases fpE with
    | false =>
      rw [List.eq_of_mem_replicate hr]
      exact freshResBlockM_usesLayerNorm _ _
    | true =>
      obtain ⟨r', hr', rfl⟩ := List.mem_map.mp hr
      rw [List.eq_of_mem_replicate hr']
      exact (ResBlockM.UsesLayerNorm_toDtype _ _).mpr (freshResBlockM_usesLayerNorm _ _)
  · intro b hb
    cases fpD with
    | false =>
      exact decBlocksPure_layerNorm nD chD b hb
    | true =>
      obtain ⟨b', hb', rfl⟩ := List.mem_map.mp hb
      exact (decBlockLayerNorm_toDtype .f16 b').mpr (decBlocksPure_layerNorm nD chD b' hb')
  · intro r hr
    cases fpD with
    | false =>
      rw [List.eq_of_mem_replicate hr]
      exact freshResBlockM_usesLayerNorm _ _
    | true =>
      obtain ⟨r', hr', rfl⟩ := List.mem_map.mp hr
      rw [List.eq_of_mem_replicate hr']
      exact (ResBlockM.UsesLayerNorm_toDtype _ _).mpr (freshResBlockM_usesLayerNorm _ _)
  · cases fpE <;> rfl
  · intro hfp
    subst hfp
    rfl

/-- Witness for C9 at a concrete `norm_type="group"` configuration: all
residual blocks still use layer normalization while the out layer got the
group normalization. -/
theorem claim_C9_witness :
    (∀ b ∈ (freshEncoderM 1 0 1 [2] 1 "group" false (NormM.group 32 2 .f32)).blocks,
      b.ResUsesLayerNorm) ∧
    (∀ r ∈ (freshEncoderM 1 0 1 [2] 1 "group" false (NormM.group 32 2 .f32)).middle_block,
      r.UsesLayerNorm) ∧
    ((freshEncoderM 1 0 1 [2] 1 "group" false (NormM.group 32 2 .f32)).out_layer.norm
      = NormM.group 32 2 .f32) ∧
    ((freshDecoderM 1 0 1 [2] 1 "group" false (NormM.group 32 2 .f32)).out_layer.norm
      = NormM.group 32 2 .f32) := by
  obtain ⟨h1, h2, h3, h4, h5, h6⟩ :=
    claim_C9 1 0 1 1 1 0 1 1 [2] [2] "group" false false
      (freshEncoderM 1 0 1 [2] 1 "group" false (NormM.group 32 2 .f32))
      (freshDecoderM 1 0 1 [2] 1 "group" false (NormM.group 32 2 .f32))
      (NormM.group 32 2 .f32) (NormM.group 32 2 .f32) rfl rfl rfl rfl
  exact ⟨h1, h2, h5, h6 rfl⟩

/-- C3: for every valid configuration with stage channel-width list of length
`S`, the encoder's forward pass divides every positive spatial axis size
divisible by `2^(S-1)` by `2^(S-1)`, and the decoder's forward pass multiplies
every positive latent axis size by `2^(S-1)`.  All kernels are cubic, so the
three spatial dimensions transform identically; `forwardSize` is the per-axis
shape semantics, applied to each of the three dimensions. -/
theorem claim_C3 (inC latC nE mE outC nD mD : Nat) (chE chD : List Nat)
    (ntE ntD : String) (fpE fpD : Bool)
    (e : SparseStructureEncoderM) (d : SparseStructureDecoderM)
    (he : SparseStructureEncoderM.init inC latC nE chE mE ntE fpE = .ok e)
    (hd : SparseStructureDecoderM.init outC latC nD chD mD ntD fpD = .ok d)
    (_hchE : chE ≠ []) (_hchD : chD ≠ []) :
    (∀ s : Nat, 0 < s → 2 ^ (chE.length - 1) ∣ s →
      e.forwardSize s = s / 2 ^ (chE.length - 1)) ∧
    (∀ s : Nat, 0 < s → d.forwardSize s = s * 2 ^ (chD.length - 1)) := by
  constructor
  · cases hnE : norm_layer ntE chE.getLastI with
    | error msg =>
      rw [encInit_eq, hnE] at he
      exact absurd he (by simp [Except.map])
    | ok nrm =>
      rw [encInit_eq, hnE] at he
      simp only [Except.map, Except.ok.injEq] at he
      subst he
      intro s hs hdvd
      cases fpE with
      | false => exact freshEncoderM_forwardSize inC latC nE chE mE ntE false nrm s hs hdvd
      | true =>
        rw [if_pos rfl, encForwardSize_fp16]
        exact freshEncoderM_forwardSize inC latC nE chE mE ntE true nrm s hs hdvd
  · cases hnD : norm_layer ntD chD.getLastI with
    | error msg =>
      rw [decInit_eq, hnD] at hd
      exact absurd hd (by simp [Except.map])
    | ok nrm =>
      rw [decInit_eq, hnD] at hd
      simp only [Except.map, Except.ok.injEq] at hd
      subst hd
      intro s hs
      cases fpD with
      | false => exact freshDecoderM_forwardSize outC latC nD chD mD ntD false nrm s hs
      | true =>
        rw [if_pos rfl, decForwardSize_fp16]
        exact freshDecoderM_forwardSize outC latC nD chD mD ntD true nrm s hs

/-- Witness for C3 at a concrete two-stage configuration: input axis size 8 is
halved by the encoder, latent axis size 3 is doubled by the decoder. -/
theorem claim_C3_witness :
    (freshEncoderM 1 1 1 [1, 2] 1 "layer" false (NormM.layer 2 .f32)).forwardSize 8
      = 8 / 2 ^ (([1, 2] : List Nat).length - 1) ∧
    (freshDecoderM 1 1 1 [2, 1] 1 "layer" false (NormM.layer 1 .f32)).forwardSize 3
      = 3 * 2 ^ (([2, 1] : List Nat).length - 1) := by
  obtain ⟨h1, h2⟩ :=
    claim_C3 1 1 1 1 1 1 1 [1, 2] [2, 1] "layer" "layer" false false
      (freshEncoderM 1 1 1 [1, 2] 1 "layer" false (NormM.layer 2 .f32))
      (freshDecoderM 1 1 1 [2, 1] 1 "layer" false (NormM.layer 1 .f32))
      rfl rfl (by decide) (by decide)
  exact ⟨h1 8 (by decide) (by decide), h2 3 (by decide)⟩

theorem rescale_bound (R : Nat) (hR : 0 < R) (D : Nat) (hD : D ≤ R + 1) (q : ℚ)
    (h0 : 0 ≤ q) (h1 : q ≤ (D : ℚ) - 1) :
    -1 ≤ q / R * 2 - 1 ∧ q / R * 2 - 1 ≤ 1 := by
  have hRQ : (0 : ℚ) < R := by exact_mod_cast hR
  constructor
  · have hnn : 0 ≤ q / R := div_nonneg h0 (le_of_lt hRQ)
    nlinarith
  · have hqR : q ≤ (R : ℚ) := by
      have hcast : (D : ℚ) ≤ (R : ℚ) + 1 := by exact_mod_cast hD
      linarith
    have hle : q / R ≤ 1 := (div_le_one hRQ).mpr hqR
    nlinarith

/-- C8 (amended): for every mesh produced by `dense2mesh` with voxel
resolution `R > 0` on batch items whose spatial extents are at most `R + 1`,
and for every marching-cubes implementation returning raw vertex coordinates
inside the grid (between `0` and `extent - 1` on each axis — the documented
behaviour of `skimage.measure.marching_cubes`), every rescaled vertex
coordinate `v / R * 2 - 1` lies in `[-1, 1]`.  The extent restriction is
necessary: the claim as stated, for arbitrary decoder-output extents, fails
(see the counterexample). -/
theorem claim_C8 (vae : DenseShapeVAE) (σ : ℚ → ℚ) (MC : MCFun)
    (x : List Grid3) (R : Nat) (t : ℚ) (hR : 0 < R)
    (hb : ∀ g ∈ x, ∀ v ∈ (MC (binGrid σ (1/10) g) t).1,
      (0 ≤ v.1 ∧ v.1 ≤ (g.dimD : ℚ) - 1) ∧
      (0 ≤ v.2.1 ∧ v.2.1 ≤ (g.dimH : ℚ) - 1) ∧
      (0 ≤ v.2.2 ∧ v.2.2 ≤ (g.dimW : ℚ) - 1))
    (hdims : ∀ g ∈ x, g.dimD ≤ R + 1 ∧ g.dimH ≤ R + 1 ∧ g.dimW ≤ R + 1) :
    ∀ m ∈ vae.dense2mesh σ MC x R t, ∀ v ∈ m.vertices,
      (-1 ≤ v.1 ∧ v.1 ≤ 1) ∧ (-1 ≤ v.2.1 ∧ v.2.1 ≤ 1) ∧
      (-1 ≤ v.2.2 ∧ v.2.2 ≤ 1) := by
  intro m hm
  obtain ⟨g, hg, rfl⟩ := List.mem_map.mp hm
  intro v hv
  obtain ⟨v0, hv0, rfl⟩ := List.mem_map.mp hv
  obtain ⟨⟨h0d, h1d⟩, ⟨h0h, h1h⟩, ⟨h0w, h1w⟩⟩ := hb g hg v0 hv0
  obtain ⟨hdD, hdH, hdW⟩ := hdims g hg
  exact ⟨rescale_bound R hR g.dimD hdD v0.1 h0d h1d,
    rescale_bound R hR g.dimH hdH v0.2.1 h0h h1h,
    rescale_bound R hR g.dimW hdW v0.2.2 h0w h1w⟩

/-- Witness for C8 at a concrete grid of extent 1 ≤ 64 + 1 and an in-bounds
marching-cubes stub, evaluated at the one produced mesh and its one vertex. -/
theorem claim_C8_witness :
    (-1 ≤ (rescaleVertex 64 ((0 : ℚ), 0, 0)).1 ∧ (rescaleVertex 64 ((0 : ℚ), 0, 0)).1 ≤ 1) ∧
    (-1 ≤ (rescaleVertex 64 ((0 : ℚ), 0, 0)).2.1 ∧ (rescaleVertex 64 ((0 : ℚ), 0, 0)).2.1 ≤ 1) ∧
    (-1 ≤ (rescaleVertex 64 ((0 : ℚ), 0, 0)).2.2 ∧ (rescaleVertex 64 ((0 : ℚ), 0, 0)).2.2 ≤ 1) := by
  refine claim_C8 ⟨0, 0, fun v => v, fun _ => []⟩ (fun q => q)
      (fun _ _ => ([((0 : ℚ), 0, 0)], [])) [⟨1, 1, 1, fun _ _ _ => 0⟩] 64 (1/2)
      (by decide) ?_ (by decide) ⟨[rescaleVertex 64 ((0 : ℚ), 0, 0)], []⟩
      (by simp [DenseShapeVAE.dense2mesh, binGrid]) (rescaleVertex 64 ((0 : ℚ), 0, 0))
      (by simp)
  intro g hg v hv
  rw [List.mem_singleton] at hg
  subst hg
  simp only [List.mem_singleton] at hv
  subst hv
  norm_num

/-- Counterexample to C8 as stated: with a batch item of spatial extent 200
but `voxel_resolution = 64`, a marching-cubes implementation that returns a
raw vertex at in-grid coordinate 199 yields the rescaled coordinate
`199/64*2 - 1 = 167/32 > 1`, outside `[-1, 1]`. -/
theorem claim_C8_counterexample :
    ¬ (∀ m ∈ DenseShapeVAE.dense2mesh ⟨0, 0, fun v => v, fun _ => []⟩ (fun q => q)
          (fun g _ => ([((g.dimD : ℚ) - 1, 0, 0)], [])) [⟨200, 200, 200, fun _ _ _ => 1⟩]
          64 (1/2),
        ∀ v ∈ m.vertices,
          (-1 ≤ v.1 ∧ v.1 ≤ 1) ∧ (-1 ≤ v.2.1 ∧ v.2.1 ≤ 1) ∧
          (-1 ≤ v.2.2 ∧ v.2.2 ≤ 1)) := by
  intro hcl
  obtain ⟨⟨hlo, hhi⟩, hrest⟩ :=
    hcl ⟨[rescaleVertex 64 (((200 : Nat) : ℚ) - 1, 0, 0)], []⟩
      (by simp [DenseShapeVAE.dense2mesh, binGrid])
      (rescaleVertex 64 (((200 : Nat) : ℚ) - 1, 0, 0)) (by simp)
  norm_num [rescaleVertex] at hhi

end DenseVAE
